import Mathlib

/-!
Shallow embedding of `src/index.ts` of the openauth-template repository: a
Cloudflare Worker that gates a single-document JSON configuration editor
behind a JWT session cookie.  Pure functions of the source are translated to
Lean functions; the surrounding platform operations (KV store, `Response`,
header access, JSON parsing of request bodies) are modelled by explicit data.
JavaScript numbers are modelled by `Int` (JS prints numbers by the
shortest-round-trip algorithm, so `Number(String(n)) = n` holds in JS exactly
as the integer model proves it here; float-specific behaviour is outside the
model).  All definitions are executable.
-/

namespace Worker

/-! ## JavaScript string primitives used by the source -/

/-- Decimal digit characters: model of the characters produced by the
JavaScript decimal printer (code points 48..57). -/
def digitChar (d : Nat) : Char := Char.ofNat (48 + d)

/-- Model of JavaScript `String(n)` on a non-negative integer: most
significant digit first.  `natToChars 0 = ['0']`, matching `String(0) = "0"`. -/
def natToChars (n : Nat) : List Char :=
  if _h : n < 10 then [digitChar n]
  else natToChars (n / 10) ++ [digitChar (n % 10)]
decreasing_by exact Nat.div_lt_self (by omega) (by omega)

/-- Model of JavaScript `String(n)` for the integer carrier: a minus sign
followed by the decimal digits when negative. -/
def jsNumToString (n : Int) : String :=
  if n < 0 then "-" ++ String.mk (natToChars n.natAbs)
  else String.mk (natToChars n.natAbs)

/-- Numeric value of a decimal digit character. -/
def digitVal (c : Char) : Nat := c.toNat - 48

/-- Decimal parse of a character list: `some` of the value when the list is a
non-empty run of digits, `none` otherwise.  Together with the sign case below
this models JavaScript `Number(s)` restricted to the integer carrier. -/
def parseNatChars (l : List Char) : Option Nat :=
  if l ≠ [] ∧ l.all Char.isDigit then
    some (l.foldl (fun a c => a * 10 + digitVal c) 0)
  else none

/-- Character-list form of the decimal number parse: optional leading minus
sign followed by decimal digits. -/
def jsNumberChars : List Char → Int
  | [] => 0
  | c :: rest =>
    if c = '-' then
      match parseNatChars rest with
      | some n => -(n : Int)
      | none => 0
    else
      match parseNatChars (c :: rest) with
      | some n => (n : Int)
      | none => 0

/-- Model of JavaScript `Number(s)` on the integer carrier: optional leading
minus sign followed by decimal digits.  Strings outside that fragment map to
`0`; in this development `jsNumber` is only ever applied to outputs of
`jsNumToString` (the value of a number-typed input field), where the fragment
suffices. -/
def jsNumber (s : String) : Int := jsNumberChars s.data

/-- Model of JavaScript `s.split('; ')` (source line 34) on character lists:
cut at every non-overlapping occurrence of the two-character separator
`"; "`, scanning left to right.  `splitSemiSp [] = [[]]`, matching
`"".split('; ') = [""]`. -/
def splitSemiSp : List Char → List (List Char)
  | [] => [[]]
  | ';' :: ' ' :: rest => [] :: splitSemiSp rest
  | c :: rest =>
    match splitSemiSp rest with
    | [] => [[c]]
    | r :: rs => (c :: r) :: rs

/-- Model of JavaScript `s.split('=')` (source line 35) on character lists:
cut at every occurrence of `'='`. -/
def splitEq : List Char → List (List Char)
  | [] => [[]]
  | c :: rest =>
    if c = '=' then [] :: splitEq rest
    else
      match splitEq rest with
      | [] => [[c]]
      | r :: rs => (c :: r) :: rs

/-- String form of `split('; ')`. -/
def jsSplitSemiSp (s : String) : List String :=
  (splitSemiSp s.data).map String.mk

/-- String form of `split('=')`. -/
def jsSplitEq (s : String) : List String :=
  (splitEq s.data).map String.mk

/-- Model of JavaScript `p.startsWith(q)`: the character list of `q` is a
prefix of the character list of `p`. -/
def jsStartsWith (p q : String) : Bool := q.data.isPrefixOf p.data

/-- Whitespace characters stripped by JavaScript `String.prototype.trim`:
WhiteSpace and LineTerminator code points of the ECMAScript specification. -/
def jsWhitespaceChar (c : Char) : Bool :=
  c = ' ' ∨ c = '\t' ∨ c = '\n' ∨ c = '\r' ∨
  c.toNat = 11 ∨ c.toNat = 12 ∨ c.toNat = 0xa0 ∨ c.toNat = 0xfeff ∨
  c.toNat = 0x1680 ∨ (0x2000 ≤ c.toNat ∧ c.toNat ≤ 0x200a) ∨
  c.toNat = 0x2028 ∨ c.toNat = 0x2029 ∨ c.toNat = 0x202f ∨
  c.toNat = 0x205f ∨ c.toNat = 0x3000

/-- Model of JavaScript `s.trim()` (source line 272): strip `jsWhitespaceChar`
characters from both ends. -/
def jsTrim (s : String) : String :=
  String.mk (((s.data.dropWhile jsWhitespaceChar).reverse.dropWhile
    jsWhitespaceChar).reverse)

/-- Token extraction of source lines 34-35:
`request.headers.get('Cookie')?.split('; ')
  .find(row => row.startsWith('token='))?.split('=')[1]`.
The `Cookie` header may be absent (`none`); JavaScript optional chaining and
out-of-range indexing both yield `undefined`, modelled by `none`. -/
def extractToken (cookie : Option String) : Option String :=
  match cookie with
  | none => none
  | some h =>
    match (jsSplitSemiSp h).find? (fun row => jsStartsWith row "token=") with
    | none => none
    | some row => (jsSplitEq row).get? 1

/-- Definition following the words of the spec (section 4.1, "scanning
semicolon-separated name=value pairs"): the name of a cookie pair is the
text before its first `=`. -/
def specPairName (p : String) : String :=
  String.mk (p.data.takeWhile (fun c => c ≠ '='))

/-- Definition following the words of the spec (section 4.1): the value of a
cookie pair is the whole text after its first `=`. -/
def specPairValue (p : String) : String :=
  String.mk ((p.data.dropWhile (fun c => c ≠ '=')).drop 1)

/-! ## JSON values

Values produced by `JSON.parse` on a request body: no `undefined` occurs
inside a parse result.  Objects are modelled by their entry list in object
iteration order; `JSON.parse` resolves duplicate keys by last-wins while
building the object, so an `obj` list always has distinct keys when it
models a parse result. -/

inductive JsValue where
  | null
  | bool (b : Bool)
  | num (n : Int)
  | str (s : String)
  | arr (items : List JsValue)
  | obj (fields : List (String × JsValue))

/-- Lowercase hexadecimal digit, used by the `\u00XX` escapes of
`JSON.stringify`. -/
def hexDigitChar (n : Nat) : Char :=
  if n < 10 then Char.ofNat (48 + n) else Char.ofNat (87 + n)

/-- Escape of one character inside a JSON string literal, as produced by
`JSON.stringify`. -/
def escapeChar (c : Char) : String :=
  if c = '"' then "\\\""
  else if c = '\\' then "\\\\"
  else if c.toNat = 8 then "\\b"
  else if c.toNat = 9 then "\\t"
  else if c.toNat = 10 then "\\n"
  else if c.toNat = 12 then "\\f"
  else if c.toNat = 13 then "\\r"
  else if c.toNat < 32 then
    "\\u00" ++ String.mk [hexDigitChar (c.toNat / 16), hexDigitChar (c.toNat % 16)]
  else String.singleton c

/-- JSON string literal for `s`, as produced by `JSON.stringify`. -/
def quoteStr (s : String) : String :=
  "\"" ++ String.join (s.data.map escapeChar) ++ "\""

/-- Indentation prefix at nesting depth `d` for `JSON.stringify(·, null, 2)`:
two spaces per level. -/
def indentStr (d : Nat) : String := String.mk (List.replicate (2 * d) ' ')

mutual

/-- Model of `JSON.stringify(v, null, 2)` (source line 341) at nesting depth
`depth`. -/
def stringifyVal (depth : Nat) : JsValue → String
  | .null => "null"
  | .bool b => if b then "true" else "false"
  | .num n => jsNumToString n
  | .str s => quoteStr s
  | .arr [] => "[]"
  | .arr (x :: xs) =>
    "[\n" ++ String.intercalate ",\n" (stringifyItems (depth + 1) (x :: xs)) ++
      "\n" ++ indentStr depth ++ "]"
  | .obj [] => "\x7b\x7d"
  | .obj (f :: fs) =>
    "\x7b\n" ++ String.intercalate ",\n" (stringifyFields (depth + 1) (f :: fs)) ++
      "\n" ++ indentStr depth ++ "\x7d"

/-- Array items of `JSON.stringify(·, null, 2)`, each on its own indented
line. -/
def stringifyItems (depth : Nat) : List JsValue → List String
  | [] => []
  | x :: xs => (indentStr depth ++ stringifyVal depth x) :: stringifyItems depth xs

/-- Object fields of `JSON.stringify(·, null, 2)`, each on its own indented
line as `"key": value`. -/
def stringifyFields (depth : Nat) : List (String × JsValue) → List String
  | [] => []
  | (k, v) :: fs =>
    (indentStr depth ++ quoteStr k ++ ": " ++ stringifyVal depth v) ::
      stringifyFields depth fs

end

mutual

/-- Model of JavaScript `String(v)` on a parsed JSON value: primitives print
directly, arrays join their elements with commas (`null` elements print as
the empty string), plain objects print as `[object Object]`. -/
def jsToString : JsValue → String
  | .null => "null"
  | .bool b => if b then "true" else "false"
  | .num n => jsNumToString n
  | .str s => s
  | .arr items => jsToStringArrayElems items
  | .obj _ => "[object Object]"

/-- Comma-joined element conversion of `Array.prototype.toString`. -/
def jsToStringArrayElems : List JsValue → String
  | [] => ""
  | [JsValue.null] => ""
  | [x] => jsToString x
  | JsValue.null :: xs => "," ++ jsToStringArrayElems xs
  | x :: xs => jsToString x ++ "," ++ jsToStringArrayElems xs

end

/-- First-match field lookup, modelling JavaScript property access on an
object whose entry list has distinct keys. -/
def lookupField : List (String × JsValue) → String → Option JsValue
  | [], _ => none
  | (k, v) :: rest, key => if k = key then some v else lookupField rest key

/-- Whether a parsed JSON value is an object literal. -/
def JsValue.isObj : JsValue → Bool
  | .obj _ => true
  | _ => false

/-! ## Platform model: KV store, `Response`, errors -/

/-- Model of one Cloudflare KV namespace: an association list from key to
stored text, most recent write first. -/
structure Store where
  entries : List (String × String)
deriving DecidableEq

/-- Model of `namespace.get(key)`: the stored text, or `none` (JavaScript
`null`) when the key is absent. -/
def Store.get (st : Store) (k : String) : Option String :=
  match st.entries.find? (fun e => e.1 == k) with
  | none => none
  | some e => some e.2

/-- Model of `namespace.put(key, value)`: full overwrite of the stored
text. -/
def Store.put (st : Store) (k v : String) : Store := ⟨(k, v) :: st.entries⟩

/-- Response bodies.  HTML template literals of the source are represented
structurally: the constructor records which template the source builds and
the data interpolated into it. -/
inductive Body where
  | empty
  | text (s : String)
  | missingKvPage (kvBinding : String)
  | editorPage (configData : String)
deriving DecidableEq

/-- Model of a platform `Response`.  `headersImmutable` is the headers guard
of the Fetch standard: responses created by `Response.redirect` carry an
immutable guard, responses created by `new Response` do not. -/
structure Response where
  status : Nat
  headers : List (String × String)
  headersImmutable : Bool
  body : Body
deriving DecidableEq

/-- Model of `Response.redirect(location, status)`: a bodiless response with
a `Location` header and an immutable headers guard (Fetch standard,
`Response.redirect` creates the response object with guard `immutable`). -/
def Response.redirect (location : String) (status : Nat) : Response :=
  ⟨status, [("Location", location)], true, .empty⟩

/-- JavaScript exceptions thrown by the modelled platform operations. -/
inductive JsError where
  | typeError (msg : String)
deriving DecidableEq

/-- Header-list update of `Headers.set`: replace the value of the first
case-insensitive match, dropping further matches, or append. -/
def setHeaderList : List (String × String) → String → String → List (String × String)
  | [], n, v => [(n, v)]
  | (n0, v0) :: rest, n, v =>
    if n0.toLower = n.toLower then
      (n0, v) :: rest.filter (fun e => !(e.1.toLower == n.toLower))
    else (n0, v0) :: setHeaderList rest n v

/-- Model of `response.headers.set(name, value)`: throws a `TypeError` when
the headers guard is immutable (Fetch standard), otherwise updates the
header list. -/
def headersSet (r : Response) (n v : String) : Except JsError Response :=
  if r.headersImmutable then .error (.typeError "immutable headers")
  else .ok { r with headers := setHeaderList r.headers n v }

/-! ## The worker source: configuration constants and handlers -/

/-- Source line 20. -/
def JWT_SECRET : String := "YOUR_SECRET_STRING_AT_LEAST_32_CHARS"

/-- Source line 21. -/
def KV_NAMESPACE_BINDING : String := "MY_CONFIG_KV"

/-- Source line 22. -/
def CONFIG_KEY : String := "json_config"

/-- Incoming request, as consumed by the source: the pathname of its URL,
the raw `Cookie` header (absent headers are `none`), and the result of
`await request.json()` — either the parsed value or the message of the
exception the parse threw. -/
structure Request where
  path : String
  cookie : Option String
  bodyJson : Except String JsValue

/-- Shared read pattern of source lines 165-168 and 349-352:
`let configData = await env[kvBinding].get(configKey);
 if (!configData) configData = '{}';`.
JavaScript `!` is true on both `null` (absent key) and the empty string. -/
def readConfigText (store : Store) (configKey : String) : String :=
  match store.get configKey with
  | none => "\x7b\x7d"
  | some s => if s = "" then "\x7b\x7d" else s

/-- Source lines 134-336, `handleEditorPage(env, kvBinding, configKey)`:
with no KV binding, the diagnostic HTML page with status 500; otherwise the
editor page built from the stored text (status defaults to 200).  `kv` is
`env[kvBinding]`. -/
def handleEditorPage (kv : Option Store) (kvBinding configKey : String) : Response :=
  match kv with
  | none => ⟨500, [("content-type", "text/html;charset=UTF-8")], false,
      .missingKvPage kvBinding⟩
  | some store => ⟨200, [("content-type", "text/html;charset=UTF-8")], false,
      .editorPage (readConfigText store configKey)⟩

/-- Destructuring `const { data } = parsedBody` (source line 340): throws a
`TypeError` on `null`, reads the `data` property on an object, and yields
`undefined` (`none`) on every other value. -/
def destructureData : JsValue → Except String (Option JsValue)
  | .null => .error "Cannot destructure property data of null"
  | .obj fields => .ok (lookupField fields "data")
  | _ => .ok none

/-- Top-level `JSON.stringify(data, null, 2)` where `data` may be
`undefined` (`none`), in which case `JSON.stringify` returns `undefined`. -/
def jsStringifyTop : Option JsValue → Option String
  | none => none
  | some v => some (stringifyVal 0 v)

/-- Source lines 338-346, `handlePublish(request, env, kvBinding, configKey)`.
The whole body sits in `try/catch`: a body-parse failure, destructuring
`null`, a missing KV binding (`env[kvBinding].put` on `undefined`), and
`put(key, undefined)` all throw, are caught, and become a 500 text response;
in each of those cases the store is untouched.  On success the stringified
`data` value overwrites the document and the handler answers 200, with no
check that `data` is an object. -/
def handlePublish (bodyJson : Except String JsValue) (kv : Option Store)
    (configKey : String) : Response × Option Store :=
  match bodyJson with
  | .error msg => (⟨500, [], false, .text ("Error saving config: " ++ msg)⟩, kv)
  | .ok body =>
    match destructureData body with
    | .error msg => (⟨500, [], false, .text ("Error saving config: " ++ msg)⟩, kv)
    | .ok dataField =>
      match kv with
      | none => (⟨500, [], false,
          .text "Error saving config: Cannot read properties of undefined (reading put)"⟩,
          none)
      | some store =>
        match jsStringifyTop dataField with
        | none => (⟨500, [], false,
            .text "Error saving config: KV put requires a value"⟩, some store)
        | some t => (⟨200, [], false, .text "Config saved."⟩,
            some (store.put configKey t))

/-- Source lines 348-359, `handleApi(env, kvBinding, configKey)`: no guard
and no `try/catch` — with a missing KV binding the property access
`env[kvBinding].get` throws a `TypeError` that nothing in the handler
catches; otherwise the stored text (defaulted to `{}`) is returned with
status 200, `Content-Type: application/json` and
`Cache-Control: no-store, must-revalidate`. -/
def handleApi (kv : Option Store) (configKey : String) : Except JsError Response :=
  match kv with
  | none => .error (.typeError "Cannot read properties of undefined (reading get)")
  | some store => .ok ⟨200,
      [("Content-Type", "application/json"),
       ("Cache-Control", "no-store, must-revalidate")], false,
      .text (readConfigText store configKey)⟩

/-- Source lines 361-369, `handleLogout()`. -/
def handleLogout : Response :=
  ⟨302, [("Location", "/"),
         ("Set-Cookie", "token=; HttpOnly; SameSite=Lax; Path=/; Max-Age=0")],
   false, .text "Logged out"⟩

/-- Source lines 29-112, the `fetch` entry point.  `verify` is an oracle for
`await jwtVerify(token, secret)` (`true` = verification succeeded, `false` =
it threw); `authServerResponse` stands for the opaque response of the
external OpenAuth issuer, `authServer.fetch(request, env, ctx)`, which
serves every request that does not carry a valid non-empty token.  The
`try/catch` of lines 38-58 wraps the awaited `jwtVerify` call, so a thrown
verification falls through to the issuer; the handler calls inside the
`switch` are returned without `await`, so a handler rejection is NOT caught
there and propagates out of `fetch` as an uncaught error (`Except.error`). -/
def fetch (verify : String → Bool) (authServerResponse : Response)
    (req : Request) (kv : Option Store) : Except JsError (Response × Option Store) :=
  match extractToken req.cookie with
  | some t =>
    if t ≠ "" then
      if verify t then
        match req.path with
        | "/" => .ok (handleEditorPage kv KV_NAMESPACE_BINDING CONFIG_KEY, kv)
        | "/publish" => .ok (handlePublish req.bodyJson kv CONFIG_KEY)
        | "/api/config" => (handleApi kv CONFIG_KEY).map (fun r => (r, kv))
        | "/logout" => .ok (handleLogout, kv)
        | _ => .ok (⟨404, [], false, .text "Not Found"⟩, kv)
      else .ok (authServerResponse, kv)
    else .ok (authServerResponse, kv)
  | none => .ok (authServerResponse, kv)

/-- Source lines 90-109, the issuer `success` callback.  `getOrCreateUser`
models the external D1 upsert of lines 114-131 (email to stable user id) and
`signJwt` the external `jose` signing of a session JWT for that id.  The
source builds the redirect with `Response.redirect(url.origin, 302)` and
then calls `headers.set('Set-Cookie', ...)` on it. -/
def success (getOrCreateUser : String → String) (signJwt : String → String)
    (origin : String) (email : String) : Except JsError Response :=
  let userId := getOrCreateUser email
  let jwt := signJwt userId
  let response := Response.redirect origin 302
  headersSet response "Set-Cookie"
    ("token=" ++ jwt ++ "; HttpOnly; SameSite=Lax; Path=/; Max-Age=" ++
      jsNumToString (24 * 60 * 60))

end Worker

/-! ## The embedded editor script (source lines 208-329)

The row model of the generated page: one `.node-row` per top-level key, a
text input for the key, a type selector, and a value input whose kind
depends on the selected type.  `renderRows` is the `DOMContentLoaded`
handler of lines 318-327, `collectData` the function of lines 268-288. -/

namespace Editor

open Worker

/-- Value of the type selector (`<select>` options of source line 242). -/
inductive RowType where
  | string
  | number
  | boolean
deriving DecidableEq

/-- State of the value input created by `createValueInput` (source lines
215-231): a text or number input carries its string value, a checkbox its
checked flag. -/
inductive InputState where
  | textInput (value : String)
  | checkbox (checked : Bool)
deriving DecidableEq

/-- State of one `.node-row` (source lines 232-267). -/
structure RowState where
  key : String
  ty : RowType
  input : InputState
deriving DecidableEq

/-- Source line 218: `(value === undefined || value === null) ? '' :
String(value)`. -/
def inputValueStr : Option JsValue → String
  | none => ""
  | some .null => ""
  | some v => jsToString v

/-- Source lines 215-231, `createValueInput(type, value)`.  For a number row
the browser keeps an assigned value string only when it is a valid
floating-point number; every string assigned here is the decimal rendering
of a number or empty, so the assignment is kept as is. -/
def createValueInput : RowType → Option JsValue → InputState
  | .number, v => .textInput (inputValueStr v)
  | .boolean, v => .checkbox (match v with
      | some (JsValue.bool true) => true
      | _ => false)
  | .string, v => .textInput (inputValueStr v)

/-- Source lines 232-267, `addNode(key, value, type)`: the row state the
call appends. -/
def addNode (key : String) (value : Option JsValue) (ty : RowType) : RowState :=
  ⟨key, ty, createValueInput ty value⟩

/-- Source line 321: `typeof value === 'boolean' ? 'boolean' :
(typeof value === 'number' ? 'number' : 'string')`. -/
def inferType : JsValue → RowType
  | .bool _ => .boolean
  | .num _ => .number
  | _ => .string

/-- Source lines 318-327: one row per key of the initial document in object
iteration order, or a single blank row when the document is empty. -/
def renderRows (doc : List (String × JsValue)) : List RowState :=
  if doc.isEmpty then [addNode "" none .string]
  else doc.map (fun kv => addNode kv.1 (some kv.2) (inferType kv.2))

/-- DOM `input.value` read on the value element: a text or number input
yields its value string, a checkbox with no explicit value attribute yields
the default `"on"`. -/
def jsInputValue : InputState → String
  | .textInput s => s
  | .checkbox _ => "on"

/-- DOM `input.checked` read on the value element: `false` on anything but a
checkbox. -/
def jsInputChecked : InputState → Bool
  | .textInput _ => false
  | .checkbox b => b

/-- Property assignment `jsonObject[key] = value` on the object under
construction: an existing key keeps its position and gets the new value, a
fresh key is appended.  (JavaScript additionally iterates integer-like keys
first; both `renderRows` and `collectData` see objects through the same
iteration order, which the entry list represents directly.) -/
def objSet : List (String × JsValue) → String → JsValue → List (String × JsValue)
  | [], k, v => [(k, v)]
  | (k0, v0) :: rest, k, v =>
    if k0 = k then (k0, v) :: rest else (k0, v0) :: objSet rest k v

/-- Source lines 276-283: the value collected from one row.  A number row
with an empty input collects `null`; otherwise `Number(value)`. -/
def rowValue (row : RowState) : JsValue :=
  match row.ty with
  | .number =>
    if jsInputValue row.input ≠ "" then .num (jsNumber (jsInputValue row.input))
    else .null
  | .boolean => .bool (jsInputChecked row.input)
  | .string => .str (jsInputValue row.input)

/-- Body of the `rows.forEach` of source lines 271-286: a row whose trimmed
key is empty is dropped, every other row assigns its collected value at its
trimmed key. -/
def collectStep (acc : List (String × JsValue)) (row : RowState) :
    List (String × JsValue) :=
  let key := jsTrim row.key
  if key ≠ "" then objSet acc key (rowValue row) else acc

/-- Source lines 268-288, `collectData()`: fold `collectStep` over the rows
in document order, starting from the empty object. -/
def collectData (rows : List RowState) : List (String × JsValue) :=
  rows.foldl collectStep []

/-- Keys usable for the round-trip statement: values limited to the three
primitive types the editor supports. -/
def JsValue.isPrim : JsValue → Bool
  | .str _ => true
  | .num _ => true
  | .bool _ => true
  | _ => false

end Editor

namespace Worker

/-! ## Round-trip facts for the decimal printer and parser -/

theorem digitVal_digitChar {d : Nat} (h : d < 10) : digitVal (digitChar d) = d := by
  interval_cases d <;> decide

theorem isDigit_digitChar {d : Nat} (h : d < 10) : (digitChar d).isDigit = true := by
  interval_cases d <;> decide

theorem natToChars_ne_nil (n : Nat) : natToChars n ≠ [] := by
  rw [natToChars]
  split
  · simp
  · simp

theorem natToChars_all_digits (n : Nat) : (natToChars n).all Char.isDigit = true := by
  induction n using natToChars.induct with
  | case1 n h =>
    rw [natToChars]
    simp only [h, dite_true]
    simp [isDigit_digitChar h]
  | case2 n h ih =>
    rw [natToChars]
    simp only [h, dite_false]
    have hm : n % 10 < 10 := Nat.mod_lt _ (by omega)
    simp [List.all_append, ih, isDigit_digitChar hm]

theorem foldl_natToChars (n : Nat) :
    ∀ a : Nat, (natToChars n).foldl (fun a c => a * 10 + digitVal c) a =
      a * 10 ^ (natToChars n).length + n := by
  induction n using natToChars.induct with
  | case1 n h =>
    intro a
    rw [natToChars]
    simp [h, digitVal_digitChar h]
  | case2 n h ih =>
    intro a
    rw [natToChars]
    simp only [h, dite_false]
    rw [List.foldl_append, ih a]
    have hm : n % 10 < 10 := Nat.mod_lt _ (by omega)
    simp only [List.foldl_cons, List.foldl_nil, digitVal_digitChar hm,
      List.length_append, List.length_cons, List.length_nil]
    have hdm := Nat.div_add_mod n 10
    ring_nf
    omega

theorem parseNatChars_natToChars (n : Nat) : parseNatChars (natToChars n) = some n := by
  unfold parseNatChars
  rw [if_pos ⟨natToChars_ne_nil n, natToChars_all_digits n⟩]
  rw [foldl_natToChars n 0]
  simp

theorem head_natToChars_isDigit (n : Nat) :
    ∀ c ∈ natToChars n, c.isDigit = true := by
  intro c hc
  have h := natToChars_all_digits n
  rw [List.all_eq_true] at h
  exact h c hc

theorem jsNumberChars_natToChars (m : Nat) : jsNumberChars (natToChars m) = (m : Int) := by
  have hne : natToChars m ≠ [] := natToChars_ne_nil m
  match hmatch : natToChars m with
  | [] => exact absurd hmatch hne
  | c :: rest =>
    have hc : c.isDigit = true := by
      apply head_natToChars_isDigit m
      rw [hmatch]; exact List.mem_cons_self _ _
    have hcne : c ≠ '-' := by
      intro hEq; rw [hEq] at hc; exact absurd hc (by decide)
    have hparse : parseNatChars (c :: rest) = some m := by
      rw [← hmatch]; exact parseNatChars_natToChars _
    rw [jsNumberChars, if_neg hcne, hparse]

theorem jsNumber_jsNumToString (n : Int) : jsNumber (jsNumToString n) = n := by
  by_cases hn : n < 0
  · have h1 : jsNumToString n = "-" ++ String.mk (natToChars n.natAbs) := by
      rw [jsNumToString, if_pos hn]
    have hdata : ("-" ++ String.mk (natToChars n.natAbs)).data
        = '-' :: natToChars n.natAbs := rfl
    rw [h1, jsNumber, hdata, jsNumberChars, if_pos rfl, parseNatChars_natToChars]
    show -(n.natAbs : Int) = n
    omega
  · have h1 : jsNumToString n = String.mk (natToChars n.natAbs) := by
      rw [jsNumToString, if_neg hn]
    have hdata : (String.mk (natToChars n.natAbs)).data = natToChars n.natAbs := rfl
    rw [h1, jsNumber, hdata, jsNumberChars_natToChars]
    omega

theorem jsNumToString_ne_empty (n : Int) : jsNumToString n ≠ "" := by
  rw [jsNumToString]
  split
  · intro h
    have : ("-" ++ String.mk (natToChars n.natAbs)).data = ("" : String).data :=
      congrArg String.data h
    simp [String.data_append, String.mk] at this
  · intro h
    have : (String.mk (natToChars n.natAbs)).data = ("" : String).data :=
      congrArg String.data h
    simp only [String.mk] at this
    exact natToChars_ne_nil n.natAbs (by simpa using this)

end Worker

namespace Worker

/-! ## Facts about the cookie splitters -/

theorem splitEq_no_sep (l : List Char) (h : '=' ∉ l) : splitEq l = [l] := by
  induction l with
  | nil => rfl
  | cons c rest ih =>
    have hc : ¬(c = '=') := by
      intro hEq
      exact h (by rw [hEq]; exact List.mem_cons_self _ _)
    have hrest : '=' ∉ rest := fun hm => h (List.mem_cons_of_mem c hm)
    simp only [splitEq, if_neg hc, ih hrest]

theorem splitEq_first (l1 l2 : List Char) (h : '=' ∉ l1) :
    splitEq (l1 ++ '=' :: l2) = l1 :: splitEq l2 := by
  induction l1 with
  | nil => simp [splitEq]
  | cons c rest ih =>
    have hc : ¬(c = '=') := by
      intro hEq
      exact h (by rw [hEq]; exact List.mem_cons_self _ _)
    have hrest : '=' ∉ rest := fun hm => h (List.mem_cons_of_mem c hm)
    rw [List.cons_append]
    simp only [splitEq, if_neg hc, ih hrest]

end Worker

namespace Worker

/-! ## Token extraction on a well-formed token pair -/

theorem extractToken_first_token_piece (h v : String)
    (hfind : (jsSplitSemiSp h).find? (fun row => jsStartsWith row "token=")
      = some ("token=" ++ v))
    (hv : '=' ∉ v.data) :
    extractToken (some h) = some v := by
  show (match (jsSplitSemiSp h).find? (fun row => jsStartsWith row "token=") with
    | none => none
    | some row => (jsSplitEq row).get? 1) = some v
  rw [hfind]
  show (List.map String.mk (splitEq ("token=" ++ v).data)).get? 1 = some v
  have hdata : ("token=" ++ v).data = ['t', 'o', 'k', 'e', 'n'] ++ '=' :: v.data := by
    rw [String.data_append]
    rfl
  rw [hdata, splitEq_first _ _ (by decide), splitEq_no_sep _ hv]
  rfl

end Worker

namespace Editor

open Worker

/-! ## Round-trip facts for the editor row model -/

theorem objSet_fresh (acc : List (String × JsValue)) (k : String) (v : JsValue)
    (h : ∀ e ∈ acc, e.1 ≠ k) : objSet acc k v = acc ++ [(k, v)] := by
  induction acc with
  | nil => rfl
  | cons e rest ih =>
    have he : ¬(e.1 = k) := h e (List.mem_cons_self _ _)
    cases e with
    | mk k0 v0 =>
      simp only [objSet, if_neg he]
      rw [ih (fun e hm => h e (List.mem_cons_of_mem _ hm)), List.cons_append]

theorem rowValue_addNode (k : String) (v : JsValue)
    (hv : JsValue.isPrim v = true) :
    rowValue (addNode k (some v) (inferType v)) = v := by
  cases v with
  | str s => rfl
  | bool b => cases b <;> rfl
  | num n =>
    show (if jsNumToString n ≠ "" then JsValue.num (jsNumber (jsNumToString n))
      else JsValue.null) = JsValue.num n
    rw [if_pos (jsNumToString_ne_empty n), jsNumber_jsNumToString]
  | null => exact absurd hv (by simp [JsValue.isPrim])
  | arr items => exact absurd hv (by simp [JsValue.isPrim])
  | obj fields => exact absurd hv (by simp [JsValue.isPrim])

theorem key_addNode (k : String) (v : Option JsValue) (ty : RowType) :
    (addNode k v ty).key = k := rfl

theorem collect_go (doc : List (String × JsValue)) :
    ∀ acc : List (String × JsValue),
      (∀ p ∈ doc, JsValue.isPrim p.2 = true) →
      (∀ k ∈ doc.map Prod.fst, jsTrim k = k ∧ k ≠ "") →
      (doc.map Prod.fst).Nodup →
      (∀ k ∈ doc.map Prod.fst, ∀ e ∈ acc, e.1 ≠ k) →
      List.foldl collectStep acc
        (doc.map (fun kv => addNode kv.1 (some kv.2) (inferType kv.2)))
      = acc ++ doc := by
  induction doc with
  | nil =>
    intro acc _ _ _ _
    simp
  | cons hd tl ih =>
    intro acc hprim hkeys hnodup hfresh
    cases hd with
    | mk k v =>
      have hk : jsTrim k = k ∧ k ≠ "" := hkeys k (by simp)
      have hvp : JsValue.isPrim v = true := hprim (k, v) (by simp)
      rw [List.map_cons, List.foldl_cons]
      have hstep : collectStep acc (addNode k (some v) (inferType v))
          = acc ++ [(k, v)] := by
        show (let key := jsTrim (addNode k (some v) (inferType v)).key
          if key ≠ "" then
            objSet acc key (rowValue (addNode k (some v) (inferType v)))
          else acc) = acc ++ [(k, v)]
        rw [key_addNode]
        simp only [hk.1]
        rw [if_pos hk.2, rowValue_addNode k v hvp]
        exact objSet_fresh acc k v (hfresh k (by simp))
      rw [hstep]
      have htl : (tl.map Prod.fst).Nodup := by
        rw [List.map_cons] at hnodup
        exact hnodup.of_cons
      rw [ih (acc ++ [(k, v)])
        (fun p hp => hprim p (List.mem_cons_of_mem _ hp))
        (fun k0 hk0 => hkeys k0 (by simp [hk0]))
        htl
        ?_]
      · rw [List.append_assoc]
        rfl
      · intro k0 hk0 e he
        rcases List.mem_append.mp he with hacc | hsing
        · exact hfresh k0 (by simp [hk0]) e hacc
        · have heq : e = (k, v) := by simpa using hsing
          subst heq
          show k ≠ k0
          intro hcontra
          subst hcontra
          have hnk : k ∉ tl.map Prod.fst := by
            rw [List.map_cons] at hnodup
            exact (List.nodup_cons.mp hnodup).1
          exact hnk hk0

end Editor

open Worker Editor

/-! ## Dispatch of `fetch` under a valid session token -/

theorem fetch_authed_eq (verify : String → Bool) (a : Response)
    (req : Request) (kv : Option Store) (t : String)
    (h1 : extractToken req.cookie = some t) (h2 : t ≠ "")
    (h3 : verify t = true) :
    fetch verify a req kv =
      (match req.path with
       | "/" => .ok (handleEditorPage kv KV_NAMESPACE_BINDING CONFIG_KEY, kv)
       | "/publish" => .ok (handlePublish req.bodyJson kv CONFIG_KEY)
       | "/api/config" => (handleApi kv CONFIG_KEY).map (fun r => (r, kv))
       | "/logout" => .ok (handleLogout, kv)
       | _ => .ok (⟨404, [], false, .text "Not Found"⟩, kv)) := by
  unfold fetch
  rw [h1]
  show (if t ≠ "" then if verify t then _ else _ else _) = _
  rw [if_pos h2, h3]
  rfl

/-- Claim C1, counterexample: an authenticated publish whose parsed body is
the object with field `data = 5` — a `data` value that is not an object — is
accepted with status 200 and a store write, although the claim says the
handler fails with `BadRequest` in that case. -/
theorem publish_nonobject_data_accepted :
    JsValue.isObj (JsValue.num 5) = false ∧
    (handlePublish (.ok (.obj [("data", JsValue.num 5)])) (some (Store.mk []))
      CONFIG_KEY).1 = ⟨200, [], false, .text "Config saved."⟩ :=
  ⟨rfl, rfl⟩

/-- Claim C1, amended: the handler parses the body as JSON and fails with a
500 text response when parsing threw, but performs no check on the `data`
value: whenever the parsed body yields any present `data` value — object or
not — the handler stringifies it, overwrites the stored document, and
returns the success acknowledgement with status 200. -/
theorem publish_parse_gate_amended (msg : String) (st : Store)
    (body dataVal : JsValue)
    (hd : destructureData body = .ok (some dataVal)) :
    handlePublish (.error msg) (some st) CONFIG_KEY
      = (⟨500, [], false, .text ("Error saving config: " ++ msg)⟩, some st) ∧
    handlePublish (.ok body) (some st) CONFIG_KEY
      = (⟨200, [], false, .text "Config saved."⟩,
         some (st.put CONFIG_KEY (stringifyVal 0 dataVal))) := by
  constructor
  · rfl
  · have hred : handlePublish (.ok body) (some st) CONFIG_KEY =
        match destructureData body with
        | Except.error m =>
          (⟨500, [], false, Body.text ("Error saving config: " ++ m)⟩, some st)
        | Except.ok dataField =>
          match jsStringifyTop dataField with
          | none => (⟨500, [], false,
              Body.text "Error saving config: KV put requires a value"⟩, some st)
          | some t2 => (⟨200, [], false, Body.text "Config saved."⟩,
              some (st.put CONFIG_KEY t2)) := rfl
    rw [hred, hd]
    rfl

/-- Witness for the amended claim C1 at a concrete input. -/
theorem publish_parse_gate_amended_witness :
    destructureData (.obj [("data", JsValue.num 5)]) = .ok (some (JsValue.num 5)) ∧
    (handlePublish (.error "Unexpected token") (some (Store.mk [])) CONFIG_KEY
      = (⟨500, [], false, .text ("Error saving config: " ++ "Unexpected token")⟩,
         some (Store.mk [])) ∧
     handlePublish (.ok (.obj [("data", JsValue.num 5)])) (some (Store.mk []))
       CONFIG_KEY
      = (⟨200, [], false, .text "Config saved."⟩,
         some ((Store.mk []).put CONFIG_KEY (stringifyVal 0 (JsValue.num 5))))) :=
  ⟨rfl, publish_parse_gate_amended "Unexpected token" (Store.mk [])
    (.obj [("data", JsValue.num 5)]) (JsValue.num 5) rfl⟩

/-- Claim C2, counterexample: with the KV binding missing, an authenticated
GET of `/api/config` does not produce any HTTP response — the `TypeError`
thrown by `env[kvBinding].get` escapes `fetch` uncaught, because the handler
promise is returned without `await` inside the `try` block — while only the
editor page `/` renders the diagnostic HTML page with status 500. -/
theorem missing_binding_api_uncaught :
    fetch (fun _ => true) ⟨200, [], false, .empty⟩
      ⟨"/api/config", some "token=t", .error "no body"⟩ none
      = .error (.typeError "Cannot read properties of undefined (reading get)") ∧
    handleEditorPage none KV_NAMESPACE_BINDING CONFIG_KEY
      = ⟨500, [("content-type", "text/html;charset=UTF-8")], false,
          .missingKvPage KV_NAMESPACE_BINDING⟩ :=
  ⟨rfl, rfl⟩

/-- Claim C2, amended: under a valid session token and a missing store
binding, the editor page `/` converts the failure to the diagnostic HTML
page with status 500, `/publish` catches its failure and answers a
plain-text 500 without touching the store, but `/api/config` raises an
uncaught `TypeError` instead of an HTTP response; nothing is retried. -/
theorem missing_binding_behaviour_amended (verify : String → Bool)
    (a : Response) (req : Request) (t : String)
    (h1 : extractToken req.cookie = some t) (h2 : t ≠ "")
    (h3 : verify t = true) :
    (req.path = "/" →
      fetch verify a req none =
        .ok (⟨500, [("content-type", "text/html;charset=UTF-8")], false,
          .missingKvPage KV_NAMESPACE_BINDING⟩, none)) ∧
    (req.path = "/publish" →
      (fetch verify a req none).map (fun p => (p.1.status, p.2))
        = .ok (500, none)) ∧
    (req.path = "/api/config" →
      fetch verify a req none =
        .error (.typeError "Cannot read properties of undefined (reading get)")) := by
  refine ⟨?_, ?_, ?_⟩ <;> intro hp <;>
    rw [fetch_authed_eq verify a req none t h1 h2 h3, hp]
  · rfl
  · show (Except.ok (handlePublish req.bodyJson none CONFIG_KEY)).map
      (fun p => (p.1.status, p.2)) = .ok (500, none)
    rcases hb : req.bodyJson with msg | body
    · rfl
    · cases body <;> rfl
  · rfl

/-- Witness for the amended claim C2 at a concrete input. -/
theorem missing_binding_behaviour_amended_witness :
    (("/api/config" : String) = "/" →
      fetch (fun _ => true) ⟨200, [], false, .empty⟩
        ⟨"/api/config", some "token=t", .error "x"⟩ none =
        .ok (⟨500, [("content-type", "text/html;charset=UTF-8")], false,
          .missingKvPage KV_NAMESPACE_BINDING⟩, none)) ∧
    (("/api/config" : String) = "/publish" →
      (fetch (fun _ => true) ⟨200, [], false, .empty⟩
        ⟨"/api/config", some "token=t", .error "x"⟩ none).map
          (fun p => (p.1.status, p.2)) = .ok (500, none)) ∧
    (("/api/config" : String) = "/api/config" →
      fetch (fun _ => true) ⟨200, [], false, .empty⟩
        ⟨"/api/config", some "token=t", .error "x"⟩ none =
        .error (.typeError "Cannot read properties of undefined (reading get)")) :=
  missing_binding_behaviour_amended (fun _ => true) ⟨200, [], false, .empty⟩
    ⟨"/api/config", some "token=t", .error "x"⟩ "t" rfl (by decide) rfl

/-- Claim C3: the success callback never returns the cookie-bearing redirect
the claim describes — `Response.redirect` creates a response whose headers
guard is immutable (Fetch standard), so the subsequent
`response.headers.set('Set-Cookie', ...)` throws a `TypeError` and the
callback rejects, for every resolved user id and every signed credential. -/
theorem success_callback_throws_on_immutable_headers
    (getOrCreateUser signJwt : String → String) (origin email : String) :
    success getOrCreateUser signJwt origin email
      = .error (.typeError "immutable headers") := rfl

/-- Claim C4, counterexample: the document with the single key `""` (a flat
JSON object with only boolean values) does not round-trip through the
editor row model — `collectData` drops the row whose trimmed key is empty,
so the collected object is empty. -/
theorem editor_roundtrip_drops_empty_key :
    collectData (renderRows [("", JsValue.bool true)]) = [] ∧
    ([] : List (String × JsValue)) ≠ [("", JsValue.bool true)] :=
  ⟨rfl, by simp⟩

/-- Claim C4, amended: for every flat document with only string, number, or
boolean values whose keys are distinct, non-empty, and fixed by `trim`,
rendering the editor rows and collecting them back yields exactly the
document. -/
theorem editor_roundtrip_amended (doc : List (String × Worker.JsValue))
    (hprim : ∀ p ∈ doc, Editor.JsValue.isPrim p.2 = true)
    (hkeys : ∀ k ∈ doc.map Prod.fst, jsTrim k = k ∧ k ≠ "")
    (hnodup : (doc.map Prod.fst).Nodup) :
    collectData (renderRows doc) = doc := by
  cases doc with
  | nil => rfl
  | cons hd tl =>
    unfold renderRows
    rw [if_neg (by simp)]
    unfold collectData
    rw [collect_go (hd :: tl) [] hprim hkeys hnodup
      (fun k _ e he => absurd he (List.not_mem_nil e))]
    rfl

/-- Witness for the amended claim C4 at a concrete document. -/
theorem editor_roundtrip_amended_witness :
    collectData (renderRows [("a", JsValue.str "hi"), ("b", JsValue.bool true)])
      = [("a", JsValue.str "hi"), ("b", JsValue.bool true)] :=
  editor_roundtrip_amended [("a", JsValue.str "hi"), ("b", JsValue.bool true)]
    (by decide) (by decide) (by decide)

/-- Claim C5, counterexample: writing the empty document text and reading it
back returns the canonical empty-object text `{}`, not the written text —
the read-side falsiness check `if (!configData)` treats the stored empty
string like an absent key. -/
theorem write_empty_read_default :
    readConfigText ((Store.mk []).put CONFIG_KEY "") CONFIG_KEY = "\x7b\x7d" ∧
    ("\x7b\x7d" : String) ≠ "" := by
  constructor
  · unfold readConfigText Store.put Store.get
    rfl
  · decide

/-- Claim C5, amended: for every non-empty document text `T`, a write of `T`
to the config key followed immediately by a read of that key returns exactly
`T`. -/
theorem write_then_read_amended (st : Store) (T : String) (hT : T ≠ "") :
    readConfigText (st.put CONFIG_KEY T) CONFIG_KEY = T := by
  unfold readConfigText
  have hget : (st.put CONFIG_KEY T).get CONFIG_KEY = some T := by
    unfold Store.put Store.get
    rw [List.find?_cons_of_pos _ (by simp)]
  rw [hget]
  show (if T = "" then "\x7b\x7d" else T) = T
  rw [if_neg hT]

/-- Witness for the amended claim C5 at a concrete text. -/
theorem write_then_read_amended_witness :
    readConfigText ((Store.mk []).put CONFIG_KEY "x") CONFIG_KEY = "x" :=
  write_then_read_amended (Store.mk []) "x" (by decide)

/-- Claim C6: a read of the config key on a store where the key is absent
returns the canonical empty-object text, and the API handler converts it to
a normal 200 response — the not-found case is never an error. -/
theorem read_absent_key_empty_object (st : Store)
    (h : st.get CONFIG_KEY = none) :
    readConfigText st CONFIG_KEY = "\x7b\x7d" ∧
    handleApi (some st) CONFIG_KEY =
      .ok ⟨200, [("Content-Type", "application/json"),
        ("Cache-Control", "no-store, must-revalidate")], false,
        .text "\x7b\x7d"⟩ := by
  have hr : readConfigText st CONFIG_KEY = "\x7b\x7d" := by
    unfold readConfigText
    rw [h]
  refine ⟨hr, ?_⟩
  show Except.ok (⟨200, [("Content-Type", "application/json"),
    ("Cache-Control", "no-store, must-revalidate")], false,
    Body.text (readConfigText st CONFIG_KEY)⟩ : Response) = _
  rw [hr]

/-- Witness for claim C6 at the empty store. -/
theorem read_absent_key_empty_object_witness :
    readConfigText (Store.mk []) CONFIG_KEY = "\x7b\x7d" ∧
    handleApi (some (Store.mk [])) CONFIG_KEY =
      .ok ⟨200, [("Content-Type", "application/json"),
        ("Cache-Control", "no-store, must-revalidate")], false,
        .text "\x7b\x7d"⟩ :=
  read_absent_key_empty_object (Store.mk []) rfl

/-- Claim C7: an authenticated GET of `/api/config` with stored value
`{"a":1}` answers status 200, body exactly the stored text,
`Content-Type: application/json` and
`Cache-Control: no-store, must-revalidate`. -/
theorem api_config_stored_response (verify : String → Bool) (a : Response)
    (req : Request) (st : Store) (t : String)
    (h1 : extractToken req.cookie = some t) (h2 : t ≠ "")
    (h3 : verify t = true) (hp : req.path = "/api/config")
    (hs : st.get CONFIG_KEY = some "\x7b\"a\":1\x7d") :
    fetch verify a req (some st) =
      .ok (⟨200, [("Content-Type", "application/json"),
        ("Cache-Control", "no-store, must-revalidate")], false,
        .text "\x7b\"a\":1\x7d"⟩, some st) := by
  rw [fetch_authed_eq verify a req (some st) t h1 h2 h3, hp]
  have hr : readConfigText st CONFIG_KEY = "\x7b\"a\":1\x7d" := by
    unfold readConfigText
    rw [hs]
    rfl
  show Except.ok ((⟨200, [("Content-Type", "application/json"),
    ("Cache-Control", "no-store, must-revalidate")], false,
    Body.text (readConfigText st CONFIG_KEY)⟩ : Response), some st) = _
  rw [hr]

/-- Witness for claim C7 at a concrete request and store. -/
theorem api_config_stored_response_witness :
    fetch (fun _ => true) ⟨200, [], false, .empty⟩
      ⟨"/api/config", some "token=t", .error "x"⟩
      (some (Store.mk [("json_config", "\x7b\"a\":1\x7d")])) =
      .ok (⟨200, [("Content-Type", "application/json"),
        ("Cache-Control", "no-store, must-revalidate")], false,
        .text "\x7b\"a\":1\x7d"⟩,
        some (Store.mk [("json_config", "\x7b\"a\":1\x7d")])) :=
  api_config_stored_response (fun _ => true) ⟨200, [], false, .empty⟩
    ⟨"/api/config", some "token=t", .error "x"⟩
    (Store.mk [("json_config", "\x7b\"a\":1\x7d")]) "t"
    rfl (by decide) rfl rfl rfl

/-- Claim C8, counterexample: in the cookie header `token=a=b` the single
semicolon-separated pair has name `token` and value `a=b`, but the
extraction takes `split('=')[1]` and hands the verifier `a`, not the pair
value `a=b`. -/
theorem token_value_truncated_at_eq :
    specPairName "token=a=b" = "token" ∧
    specPairValue "token=a=b" = "a=b" ∧
    extractToken (some "token=a=b") = some "a" ∧
    (some "a" : Option String) ≠ some "a=b" :=
  ⟨rfl, rfl, rfl, by decide⟩

/-- Witness for the amended claim C8 at a concrete header. -/
theorem token_extraction_amended_witness :
    extractToken (some "a=1; token=xyz") = some "xyz" :=
  extractToken_first_token_piece "a=1; token=xyz" "xyz" (by decide) (by decide)

/-- Claim C9: an authenticated GET of `/logout` answers status 302,
`Location: /`, and a `Set-Cookie` header clearing the token cookie with
`Max-Age=0`. -/
theorem logout_response_fields (verify : String → Bool) (a : Response)
    (req : Request) (kv : Option Store) (t : String)
    (h1 : extractToken req.cookie = some t) (h2 : t ≠ "")
    (h3 : verify t = true) (hp : req.path = "/logout") :
    fetch verify a req kv =
      .ok (⟨302, [("Location", "/"),
        ("Set-Cookie", "token=; HttpOnly; SameSite=Lax; Path=/; Max-Age=0")],
        false, .text "Logged out"⟩, kv) := by
  rw [fetch_authed_eq verify a req kv t h1 h2 h3, hp]
  rfl

/-- Witness for claim C9 at a concrete request. -/
theorem logout_response_fields_witness :
    fetch (fun _ => true) ⟨200, [], false, .empty⟩
      ⟨"/logout", some "token=t", .error "x"⟩ none =
      .ok (⟨302, [("Location", "/"),
        ("Set-Cookie", "token=; HttpOnly; SameSite=Lax; Path=/; Max-Age=0")],
        false, .text "Logged out"⟩, none) :=
  logout_response_fields (fun _ => true) ⟨200, [], false, .empty⟩
    ⟨"/logout", some "token=t", .error "x"⟩ none "t" rfl (by decide) rfl rfl

/-- Claim C10: an authenticated POST to `/publish` whose body fails to parse
as JSON answers status 500 and leaves the store exactly as it was — the
write is never attempted. -/
theorem publish_parse_failure_no_write (verify : String → Bool) (a : Response)
    (req : Request) (kv : Option Store) (t msg : String)
    (h1 : extractToken req.cookie = some t) (h2 : t ≠ "")
    (h3 : verify t = true) (hp : req.path = "/publish")
    (hb : req.bodyJson = .error msg) :
    fetch verify a req kv =
      .ok (⟨500, [], false, .text ("Error saving config: " ++ msg)⟩, kv) := by
  rw [fetch_authed_eq verify a req kv t h1 h2 h3, hp]
  show Except.ok (handlePublish req.bodyJson kv CONFIG_KEY) = _
  rw [hb]
  rfl

/-- Witness for claim C10 at a concrete request and store. -/
theorem publish_parse_failure_no_write_witness :
    fetch (fun _ => true) ⟨200, [], false, .empty⟩
      ⟨"/publish", some "token=t", .error "Unexpected end of JSON input"⟩
      (some (Store.mk [("json_config", "old")])) =
      .ok (⟨500, [], false,
        .text ("Error saving config: " ++ "Unexpected end of JSON input")⟩,
        some (Store.mk [("json_config", "old")])) :=
  publish_parse_failure_no_write (fun _ => true) ⟨200, [], false, .empty⟩
    ⟨"/publish", some "token=t", .error "Unexpected end of JSON input"⟩
    (some (Store.mk [("json_config", "old")])) "t" "Unexpected end of JSON input"
    rfl (by decide) rfl rfl rfl
